import Mathlib

/-!
Shallow embedding of the esi-leap interval-reservation engine
(`esi_leap/db/sqlalchemy/api.py` and the claim path of
`esi_leap/api/controllers/v1/offer.py`).

Times are modelled as `Nat` (datetimes form a totally ordered set and the
engine only compares them).  Rows of the three tables become structures;
the database becomes a `Store` of three lists.  Fallible operations
return `Except Exc _`; a Python `AttributeError` raised by dereferencing
a `None` row is the `Exc.noneAttributeError` outcome, and SQLAlchemy's
`one_or_none` raising on several rows is `Exc.multipleResultsFound`.
-/

namespace EsiLeap

/-- Reservation statuses (`esi_leap/common/statuses.py`). -/
inductive Status where
  | AVAILABLE
  | CREATED
  | ACTIVE
  | CANCELLED
  | EXPIRED
  | CLAIMED
  | COMPLETED
  | ERROR
  deriving DecidableEq, Repr, BEq

/-- A row of the `offers` table (fields the engine reads). -/
structure Offer where
  uuid : Nat
  project_id : Nat
  lessee_id : Option Nat
  resource_type : Nat
  resource_uuid : Nat
  start_time : Nat
  end_time : Nat
  status : Status
  properties : Nat
  deriving DecidableEq, Repr, BEq

/-- A row of the `leases` table (fields the engine reads). -/
structure Lease where
  uuid : Nat
  project_id : Nat
  owner_id : Nat
  offer_uuid : Option Nat
  resource_type : Nat
  resource_uuid : Nat
  start_time : Nat
  end_time : Nat
  status : Status
  properties : Nat
  deriving DecidableEq, Repr, BEq

/-- A row of the `owner_changes` table (fields the engine reads). -/
structure OwnerChange where
  uuid : Nat
  from_owner_id : Nat
  to_owner_id : Nat
  resource_type : Nat
  resource_uuid : Nat
  start_time : Nat
  end_time : Nat
  status : Status
  deriving DecidableEq, Repr, BEq

/-- The reservation store: the three tables. -/
structure Store where
  offers : List Offer
  leases : List Lease
  ownerChanges : List OwnerChange
  deriving DecidableEq, Repr

/-- The exceptions the embedded operations can raise
(`esi_leap/common/exception.py` kinds used by the DB layer, plus the two
Python-level failure modes of the update path). -/
inductive Exc where
  | invalidTimeRange (resource : String) (start_time end_time : Nat)
  | resourceTimeConflict (resource_uuid resource_type : Nat)
  | offerNoTimeAvailabilities (offer_uuid start_time end_time : Nat)
  | offerNotFound (offer_uuid : Nat)
  | leaseNotFound (lease_uuid : Nat)
  | ownerChangeNotFound (owner_change_uuid : Nat)
  | noneAttributeError
  | multipleResultsFound
  deriving DecidableEq, Repr

/-- SQLAlchemy `Query.one_or_none` over the rows matched by a filter:
`none` for no row, the row for exactly one, an error for several. -/
def one_or_none {α : Type} (l : List α) : Except Exc (Option α) :=
  match l with
  | [] => Except.ok none
  | [a] => Except.ok (some a)
  | _ :: _ :: _ => Except.error Exc.multipleResultsFound

/-- The three-clause overlap filter used verbatim (with the candidate
window `[start, end_)` against a stored interval `[s, e)`) in
`offer_verify_availability` and `resource_verify_availability`:
`(start >= s AND start < e) OR (end_ > s AND end_ <= e) OR
(start <= s AND end_ >= e)`. -/
def overlapFilter (start end_ s e : Nat) : Bool :=
  (decide (s ≤ start) && decide (start < e)) ||
  (decide (s < end_) && decide (end_ ≤ e)) ||
  (decide (start ≤ s) && decide (e ≤ end_))

/-- The straddle filter of `resource_check_admin` (window
`[start_time, end_time)` against an owner-change interval `[s, e)`). -/
def straddleFilter (start_time end_time s e : Nat) : Bool :=
  (decide (s ≤ start_time) && decide (start_time < e) && decide (e < end_time)) ||
  (decide (start_time < s) && decide (s < end_time) && decide (end_time < e)) ||
  (decide (start_time ≤ s) && decide (e ≤ end_time))

/-- The row filter of the offer population of `resource_verify_availability`:
same resource and status `AVAILABLE`. -/
def offerMatches (r_type r_uuid : Nat) (o : Offer) : Bool :=
  o.resource_uuid == r_uuid && o.resource_type == r_type &&
    o.status == Status.AVAILABLE

/-- The row filter of the lease population of `resource_verify_availability`:
same resource and status in `{CREATED, ACTIVE}`. -/
def leaseMatches (r_type r_uuid : Nat) (l : Lease) : Bool :=
  l.resource_uuid == r_uuid && l.resource_type == r_type &&
    (l.status == Status.CREATED || l.status == Status.ACTIVE)

/-- The row filter of the owner-change population of
`resource_verify_availability` and of the straddle check of
`resource_check_admin`: same resource and status in `{CREATED, ACTIVE}`. -/
def ownerChangeMatches (r_type r_uuid : Nat) (oc : OwnerChange) : Bool :=
  oc.resource_uuid == r_uuid && oc.resource_type == r_type &&
    (oc.status == Status.CREATED || oc.status == Status.ACTIVE)

/-- `resource_verify_availability(r_type, r_uuid, start, end,
is_owner_change)`: checks the candidate window against AVAILABLE offers,
then {CREATED, ACTIVE} leases, then — only when `is_owner_change` —
{CREATED, ACTIVE} owner-changes, raising `ResourceTimeConflict` at the
first population with an overlapping row. -/
def resource_verify_availability (st : Store) (r_type r_uuid start end_ : Nat)
    (is_owner_change : Bool) : Except Exc Unit :=
  let offers := st.offers.filter (offerMatches r_type r_uuid)
  let offer_conflict :=
    (offers.filter (fun o => overlapFilter start end_ o.start_time o.end_time)).head?
  if offer_conflict.isSome then
    Except.error (Exc.resourceTimeConflict r_uuid r_type)
  else
    let leases := st.leases.filter (leaseMatches r_type r_uuid)
    let lease_conflict :=
      (leases.filter (fun l => overlapFilter start end_ l.start_time l.end_time)).head?
    if lease_conflict.isSome then
      Except.error (Exc.resourceTimeConflict r_uuid r_type)
    else if !is_owner_change then
      Except.ok ()
    else
      let ocs := st.ownerChanges.filter (ownerChangeMatches r_type r_uuid)
      let oc_conflict :=
        (ocs.filter (fun oc => overlapFilter start end_ oc.start_time oc.end_time)).head?
      if oc_conflict.isSome then
        Except.error (Exc.resourceTimeConflict r_uuid r_type)
      else
        Except.ok ()

/-- `owner_change_get_all(filters)` for the filter keys
`resource_check_admin` passes: resource identity via `filter_by`, a
status set via `in_`, and — when both are present — the time filter
`start >= OwnerChange.start_time AND end <= OwnerChange.end_time`
(the requested window lies inside the change's interval). -/
def owner_change_get_all (st : Store) (resource_type resource_uuid : Nat)
    (start end_ : Option Nat) (status : Option (List Status)) : List OwnerChange :=
  let q := st.ownerChanges.filter (fun oc =>
    oc.resource_type == resource_type && oc.resource_uuid == resource_uuid)
  let q := match status with
    | some ss => q.filter (fun oc => ss.contains oc.status)
    | none => q
  match start, end_ with
  | some s, some e =>
      q.filter (fun oc => decide (oc.start_time ≤ s) && decide (e ≤ oc.end_time))
  | _, _ => q

/-- `resource_check_admin(resource_type, resource_uuid, start_time,
end_time, default_admin_project_id, project_id)`: deny when a
{CREATED, ACTIVE} owner-change on the resource straddles the window;
otherwise consult `owner_change_get_all` with the window as time filter —
more than one result denies, exactly one compares against its
`to_owner_id`, none compares against the default admin project. -/
def resource_check_admin (st : Store)
    (resource_type resource_uuid start_time end_time
     default_admin_project_id project_id : Nat) : Bool :=
  let base := st.ownerChanges.filter (ownerChangeMatches resource_type resource_uuid)
  let ocs_conflicts := base.filter (fun oc =>
    straddleFilter start_time end_time oc.start_time oc.end_time)
  if 0 < ocs_conflicts.length then
    false
  else
    let ocs := owner_change_get_all st resource_type resource_uuid
      (some start_time) (some end_time) (some [Status.CREATED, Status.ACTIVE])
    match ocs with
    | [] => project_id == default_admin_project_id
    | [oc] => project_id == oc.to_owner_id
    | _ :: _ :: _ => false

/-- The lease filter shared by `offer_get_conflict_times`,
`offer_get_first_availability` and `offer_verify_availability`: leases of
the given offer with status in `{CREATED, ACTIVE}`. -/
def leaseOnOffer (offer_uuid : Nat) (l : Lease) : Bool :=
  l.offer_uuid == some offer_uuid &&
    (l.status == Status.CREATED || l.status == Status.ACTIVE)

/-- `offer_verify_availability(offer_ref, start, end)`: raise
`OfferNoTimeAvailabilities` when the window leaves the offer's interval,
or when a {CREATED, ACTIVE} lease of the offer overlaps it. -/
def offer_verify_availability (st : Store) (offer_ref : Offer)
    (start end_ : Nat) : Except Exc Unit :=
  if start < offer_ref.start_time || offer_ref.end_time < end_ then
    Except.error (Exc.offerNoTimeAvailabilities offer_ref.uuid start end_)
  else
    let leases := st.leases.filter (leaseOnOffer offer_ref.uuid)
    let conflict :=
      (leases.filter (fun l => overlapFilter start end_ l.start_time l.end_time)).head?
    if conflict.isSome then
      Except.error (Exc.offerNoTimeAvailabilities offer_ref.uuid start end_)
    else
      Except.ok ()

/-- Comparison by lease start time, the `order_by(Lease.start_time)` of
`offer_get_conflict_times` and `offer_get_first_availability`. -/
def leaseLe (a b : Lease) : Prop :=
  a.start_time ≤ b.start_time

instance : DecidableRel leaseLe :=
  fun a b => Nat.decLe a.start_time b.start_time

instance : IsTotal Lease leaseLe :=
  ⟨fun a b => Nat.le_total a.start_time b.start_time⟩

instance : IsTrans Lease leaseLe :=
  ⟨fun _ _ _ h h2 => Nat.le_trans h h2⟩

/-- `offer_get_conflict_times(offer_ref)`: the `(start_time, end_time)`
pairs of the offer's {CREATED, ACTIVE} leases, ordered by start time. -/
def offer_get_conflict_times (st : Store) (offer_ref : Offer) : List (Nat × Nat) :=
  (List.insertionSort leaseLe
    (st.leases.filter (leaseOnOffer offer_ref.uuid))).map
    (fun l => (l.start_time, l.end_time))

/-- `offer_get_first_availability(offer_uuid, start)`: among the offer's
{CREATED, ACTIVE} leases ordered by start time, the start time of the
first one whose `end_time >= start`. -/
def offer_get_first_availability (st : Store) (offer_uuid start : Nat) : Option Nat :=
  (((List.insertionSort leaseLe
      (st.leases.filter (leaseOnOffer offer_uuid))).filter
      (fun l => decide (start ≤ l.end_time))).head?).map Lease.start_time

/-- The end-time resolution of `OffersController.claim`: an explicit
`end_time` is kept; otherwise `offer.get_first_availability(start)`
supplies the end, falling back to the offer's `end_time`. -/
def claim_resolve_end_time (st : Store) (offer : Offer) (start : Nat)
    (end_time : Option Nat) : Nat :=
  match end_time with
  | some e => e
  | none =>
    match offer_get_first_availability st offer.uuid start with
    | none => offer.end_time
    | some q_start => q_start

/-- Modelled from the spec: `Offer.get_availabilities` lives in
`esi_leap/objects/offer.py`, which is not among the provided sources
(only its unit tests are).  Spec 4.2: scan the sorted occupied list
maintaining a cursor initialized to the offer's start; for each occupied
interval `[s, e)`, if `cursor < s` emit the gap `[cursor, s)`; advance
`cursor = max(cursor, e)`; after the scan, if `cursor < O.end` emit the
final gap `[cursor, O.end)`. -/
def availabilitiesScan (cursor : Nat) (occupied : List (Nat × Nat))
    (offerEnd : Nat) : List (Nat × Nat) :=
  match occupied with
  | [] => if cursor < offerEnd then [(cursor, offerEnd)] else []
  | (s, e) :: rest =>
      (if cursor < s then [(cursor, s)] else []) ++
        availabilitiesScan (max cursor e) rest offerEnd

/-- Modelled from the spec: `Offer.get_availabilities` applies the scan
of spec 4.2 to the offer's interval and the occupied list. -/
def get_availabilities (o : Offer) (occupied : List (Nat × Nat)) : List (Nat × Nat) :=
  availabilitiesScan o.start_time occupied o.end_time

/-- `offer_destroy(offer_uuid)`: `OfferNotFound` when the lookup finds
nothing, otherwise delete the row. -/
def offer_destroy (st : Store) (offer_uuid : Nat) : Except Exc Store :=
  match one_or_none (st.offers.filter (fun o => o.uuid == offer_uuid)) with
  | Except.error err => Except.error err
  | Except.ok none => Except.error (Exc.offerNotFound offer_uuid)
  | Except.ok (some _) =>
      Except.ok { st with offers := st.offers.filter (fun o => !(o.uuid == offer_uuid)) }

/-- `lease_destroy(lease_uuid)`: `LeaseNotFound` when the lookup finds
nothing; otherwise the source calls `query.delete()` on the unfiltered
`model_query(models.Lease)` — `filter_by` is generative and was only
used for the existence probe — so every row of the lease table is
deleted, not just the matching one. -/
def lease_destroy (st : Store) (lease_uuid : Nat) : Except Exc Store :=
  match one_or_none (st.leases.filter (fun l => l.uuid == lease_uuid)) with
  | Except.error err => Except.error err
  | Except.ok none => Except.error (Exc.leaseNotFound lease_uuid)
  | Except.ok (some _) => Except.ok { st with leases := [] }

/-- `owner_change_destroy(owner_change_uuid)`: `OwnerChangeNotFound`
when the lookup finds nothing; otherwise, as in `lease_destroy`, the
source calls `query.delete()` on the unfiltered
`model_query(models.OwnerChange)`, deleting every owner-change row. -/
def owner_change_destroy (st : Store) (owner_change_uuid : Nat) : Except Exc Store :=
  match one_or_none (st.ownerChanges.filter (fun oc => oc.uuid == owner_change_uuid)) with
  | Except.error err => Except.error err
  | Except.ok none => Except.error (Exc.ownerChangeNotFound owner_change_uuid)
  | Except.ok (some _) => Except.ok { st with ownerChanges := [] }

/-- The partial values map of an update call, after the source pops its
non-updatable identity keys (`uuid`, `project_id`, and for owner-changes
the from/to owners and resource identity). -/
structure UpdateValues where
  start_time : Option Nat
  end_time : Option Nat
  status : Option Status
  properties : Option Nat
  deriving DecidableEq, Repr

/-- `ref.update(values)` on an offer row: overwrite exactly the supplied
fields. -/
def Offer.applyUpdate (o : Offer) (v : UpdateValues) : Offer :=
  { o with
    start_time := v.start_time.getD o.start_time
    end_time := v.end_time.getD o.end_time
    status := v.status.getD o.status
    properties := v.properties.getD o.properties }

/-- `ref.update(values)` on a lease row: overwrite exactly the supplied
fields. -/
def Lease.applyUpdate (l : Lease) (v : UpdateValues) : Lease :=
  { l with
    start_time := v.start_time.getD l.start_time
    end_time := v.end_time.getD l.end_time
    status := v.status.getD l.status
    properties := v.properties.getD l.properties }

/-- `ref.update(values)` on an owner-change row: overwrite exactly the
supplied fields (owner-change rows carry no property bag in the engine;
the `properties` key would simply be ignored by the row). -/
def OwnerChange.applyUpdate (oc : OwnerChange) (v : UpdateValues) : OwnerChange :=
  { oc with
    start_time := v.start_time.getD oc.start_time
    end_time := v.end_time.getD oc.end_time
    status := v.status.getD oc.status }

/-- Resolution of an effective time bound in the update path:
`values.get(key)` when supplied, else `ref.<key>` — which dereferences
`ref` and so raises Python's `AttributeError` when the lookup returned
`None`. -/
def effectiveTime (supplied : Option Nat) (stored : Option Nat) : Except Exc Nat :=
  match supplied with
  | some t => Except.ok t
  | none =>
    match stored with
    | some t => Except.ok t
    | none => Except.error Exc.noneAttributeError

/-- `offer_update(offer_uuid, values)`: look the row up, resolve the
effective bounds (existing value when a bound is omitted), raise
`InvalidTimeRange` when `start >= end`, else write the merged row. -/
def offer_update (st : Store) (offer_uuid : Nat) (v : UpdateValues) :
    Except Exc (Store × Offer) :=
  match one_or_none (st.offers.filter (fun o => o.uuid == offer_uuid)) with
  | Except.error err => Except.error err
  | Except.ok offer_ref =>
    match effectiveTime v.start_time (offer_ref.map Offer.start_time) with
    | Except.error err => Except.error err
    | Except.ok start =>
      match effectiveTime v.end_time (offer_ref.map Offer.end_time) with
      | Except.error err => Except.error err
      | Except.ok end_ =>
        if end_ ≤ start then
          Except.error (Exc.invalidTimeRange "an offer" start end_)
        else
          match offer_ref with
          | none => Except.error Exc.noneAttributeError
          | some o =>
            Except.ok
              ({ st with offers := st.offers.map (fun x =>
                  if x.uuid == offer_uuid then x.applyUpdate v else x) },
               o.applyUpdate v)

/-- `lease_update(lease_uuid, values)`: same shape as `offer_update`. -/
def lease_update (st : Store) (lease_uuid : Nat) (v : UpdateValues) :
    Except Exc (Store × Lease) :=
  match one_or_none (st.leases.filter (fun l => l.uuid == lease_uuid)) with
  | Except.error err => Except.error err
  | Except.ok lease_ref =>
    match effectiveTime v.start_time (lease_ref.map Lease.start_time) with
    | Except.error err => Except.error err
    | Except.ok start =>
      match effectiveTime v.end_time (lease_ref.map Lease.end_time) with
      | Except.error err => Except.error err
      | Except.ok end_ =>
        if end_ ≤ start then
          Except.error (Exc.invalidTimeRange "a lease" start end_)
        else
          match lease_ref with
          | none => Except.error Exc.noneAttributeError
          | some l =>
            Except.ok
              ({ st with leases := st.leases.map (fun x =>
                  if x.uuid == lease_uuid then x.applyUpdate v else x) },
               l.applyUpdate v)

/-- `owner_change_update(owner_change_uuid, values)`: same shape as
`offer_update`. -/
def owner_change_update (st : Store) (owner_change_uuid : Nat) (v : UpdateValues) :
    Except Exc (Store × OwnerChange) :=
  match one_or_none (st.ownerChanges.filter (fun oc => oc.uuid == owner_change_uuid)) with
  | Except.error err => Except.error err
  | Except.ok oc_ref =>
    match effectiveTime v.start_time (oc_ref.map OwnerChange.start_time) with
    | Except.error err => Except.error err
    | Except.ok start =>
      match effectiveTime v.end_time (oc_ref.map OwnerChange.end_time) with
      | Except.error err => Except.error err
      | Except.ok end_ =>
        if end_ ≤ start then
          Except.error (Exc.invalidTimeRange "an owner_change" start end_)
        else
          match oc_ref with
          | none => Except.error Exc.noneAttributeError
          | some oc =>
            Except.ok
              ({ st with ownerChanges := st.ownerChanges.map (fun x =>
                  if x.uuid == owner_change_uuid then x.applyUpdate v else x) },
               oc.applyUpdate v)

/-- The containment direction claimed by spec 4.4 step 2, stated from the
spec's words for comparison with the source: the owner-change interval
wholly inside the requested window, inclusive bounds
(`window_start <= OC.start AND window_end >= OC.end`). -/
def specContainedInWindow (window_start window_end s e : Nat) : Bool :=
  decide (window_start ≤ s) && decide (e ≤ window_end)

/-! ### Helper lemmas -/

theorem filter_head_isSome {α : Type} (p : α → Bool) (l : List α) :
    ((l.filter p).head?).isSome = true ↔ ∃ x ∈ l, p x = true := by
  constructor
  · intro h
    match hf : l.filter p with
    | [] => rw [hf] at h; simp at h
    | a :: as =>
      have ha : a ∈ l.filter p := by rw [hf]; exact List.mem_cons_self a as
      rcases List.mem_filter.mp ha with ⟨hmem, hp⟩
      exact ⟨a, hmem, hp⟩
  · rintro ⟨x, hx, hp⟩
    have hm : x ∈ l.filter p := List.mem_filter.mpr ⟨hx, hp⟩
    match hf : l.filter p with
    | [] => rw [hf] at hm; simp at hm
    | a :: as => rfl

theorem filter2_head_isSome {α : Type} (p q : α → Bool) (l : List α) :
    (((l.filter p).filter q).head?).isSome = true ↔
      ∃ x ∈ l, p x = true ∧ q x = true := by
  rw [filter_head_isSome]
  constructor
  · rintro ⟨x, hx, hq⟩
    rcases List.mem_filter.mp hx with ⟨hm, hp⟩
    exact ⟨x, hm, hp, hq⟩
  · rintro ⟨x, hm, hp, hq⟩
    exact ⟨x, List.mem_filter.mpr ⟨hm, hp⟩, hq⟩

theorem overlapFilter_iff (start end_ s e : Nat) :
    overlapFilter start end_ s e = true ↔
      (s ≤ start ∧ start < e) ∨ (s < end_ ∧ end_ ≤ e) ∨
        (start ≤ s ∧ e ≤ end_) := by
  simp [overlapFilter, Bool.or_eq_true, Bool.and_eq_true, decide_eq_true_eq,
    or_assoc]

theorem straddleFilter_iff (ws we s e : Nat) :
    straddleFilter ws we s e = true ↔
      (s ≤ ws ∧ ws < e ∧ e < we) ∨ (ws < s ∧ s < we ∧ we < e) ∨
        (ws ≤ s ∧ e ≤ we) := by
  simp [straddleFilter, Bool.or_eq_true, Bool.and_eq_true, decide_eq_true_eq,
    and_assoc, or_assoc]

theorem filter_eq_nil_of_ne {α : Type} (f : α → Nat) (u : Nat) (l : List α)
    (h : ∀ x ∈ l, f x ≠ u) : l.filter (fun x => f x == u) = [] := by
  rw [List.filter_eq_nil_iff]
  intro x hx
  simp [h x hx]

theorem filter_eq_single {α : Type} (f : α → Nat) (u : Nat)
    (pre post : List α) (o : α) (ho : f o = u)
    (hpre : ∀ x ∈ pre, f x ≠ u) (hpost : ∀ x ∈ post, f x ≠ u) :
    ((pre ++ o :: post).filter (fun x => f x == u) = [o]) ∧
    ((pre ++ o :: post).filter (fun x => !(f x == u)) = pre ++ post) := by
  constructor
  · rw [List.filter_append, filter_eq_nil_of_ne f u pre hpre]
    simp [List.filter_cons, ho, filter_eq_nil_of_ne f u post hpost]
  · rw [List.filter_append]
    have h1 : pre.filter (fun x => !(f x == u)) = pre :=
      List.filter_eq_self.mpr (fun x hx => by simp [hpre x hx])
    have h2 : post.filter (fun x => !(f x == u)) = post :=
      List.filter_eq_self.mpr (fun x hx => by simp [hpost x hx])
    simp [List.filter_cons, ho, h1, h2]

/-! ### Claim theorems -/

/-- A concrete AVAILABLE offer `[50, 60)` on resource `(type 0, uuid 1)`. -/
def exampleOffer : Offer :=
  { uuid := 7, project_id := 3, lessee_id := none,
    resource_type := 0, resource_uuid := 1,
    start_time := 50, end_time := 60,
    status := Status.AVAILABLE, properties := 0 }

/-- A concrete store: just `exampleOffer`, no leases, no owner changes. -/
def exampleStore : Store :=
  { offers := [exampleOffer],
    leases := [],
    ownerChanges := [] }

/-- C1: with `is_owner_change=False`, `resource_verify_availability`
raises `ResourceTimeConflict` iff some stored AVAILABLE offer or some
stored CREATED/ACTIVE lease on the resource satisfies the three-clause
overlap disjunction against the candidate window; and the disjunction is
false for windows touching only at a boundary. -/
theorem resource_verify_availability_conflict_iff
    (st : Store) (r_type r_uuid start end_ : Nat) :
    (resource_verify_availability st r_type r_uuid start end_ false =
        Except.error (Exc.resourceTimeConflict r_uuid r_type) ↔
      (∃ o ∈ st.offers, offerMatches r_type r_uuid o = true ∧
        overlapFilter start end_ o.start_time o.end_time = true) ∨
      (∃ l ∈ st.leases, leaseMatches r_type r_uuid l = true ∧
        overlapFilter start end_ l.start_time l.end_time = true)) ∧
    (∀ s e s2 e2 : Nat, s < e → s2 < e2 → (e = s2 ∨ s = e2) →
      overlapFilter s e s2 e2 = false) := by
  constructor
  · simp only [resource_verify_availability]
    split
    · rename_i hOff
      simp only [true_iff, Except.error.injEq, Exc.resourceTimeConflict.injEq,
        and_self, true_iff]
      exact Or.inl ((filter2_head_isSome _ _ _).mp hOff)
    · rename_i hOff
      split
      · rename_i hLease
        simp only [true_iff, Except.error.injEq, Exc.resourceTimeConflict.injEq,
          and_self, true_iff]
        exact Or.inr ((filter2_head_isSome _ _ _).mp hLease)
      · rename_i hLease
        simp only [Bool.not_false, if_pos]
        constructor
        · intro h
          exact absurd h (by simp)
        · rintro (h | h)
          · exact absurd ((filter2_head_isSome _ _ _).mpr h) hOff
          · exact absurd ((filter2_head_isSome _ _ _).mpr h) hLease
  · intro s e s2 e2 h1 h2 h3
    rw [Bool.eq_false_iff]
    intro hcontra
    simp only [overlapFilter, Bool.or_eq_true, Bool.and_eq_true,
      decide_eq_true_eq] at hcontra
    rcases h3 with h3 | h3 <;> omega

/-- C1 witness: boundary touch `[30, 50)` against `[50, 60)` does not
overlap, by the theorem applied at a concrete store and window. -/
theorem resource_verify_availability_conflict_iff_witness :
    overlapFilter 30 50 50 60 = false :=
  (resource_verify_availability_conflict_iff exampleStore 0 1 45 55).2
    30 50 50 60 (by decide) (by decide) (Or.inl rfl)

/-- C7: `offer_verify_availability` raises `OfferNoTimeAvailabilities`
whenever the window leaves the offer's interval, regardless of leases;
for a window inside the offer's interval it raises iff a CREATED/ACTIVE
lease of the offer overlaps it under the three-clause test. -/
theorem offer_verify_availability_spec (st : Store) (o : Offer) (start end_ : Nat) :
    (start < o.start_time ∨ o.end_time < end_ →
      offer_verify_availability st o start end_ =
        Except.error (Exc.offerNoTimeAvailabilities o.uuid start end_)) ∧
    (o.start_time ≤ start → end_ ≤ o.end_time →
      (offer_verify_availability st o start end_ =
          Except.error (Exc.offerNoTimeAvailabilities o.uuid start end_) ↔
        ∃ l ∈ st.leases, leaseOnOffer o.uuid l = true ∧
          overlapFilter start end_ l.start_time l.end_time = true)) := by
  constructor
  · intro h
    have hc : (decide (start < o.start_time) || decide (o.end_time < end_)) = true := by
      simp only [Bool.or_eq_true, decide_eq_true_eq]
      exact h
    simp [offer_verify_availability, hc]
  · intro h1 h2
    have hc : (decide (start < o.start_time) || decide (o.end_time < end_)) = false := by
      simp only [Bool.or_eq_false_iff, decide_eq_false_iff_not, not_lt]
      exact ⟨h1, h2⟩
    simp only [offer_verify_availability, hc, Bool.false_eq_true, if_false]
    split
    · rename_i hC
      simp only [Except.error.injEq, Exc.offerNoTimeAvailabilities.injEq, and_self,
        true_iff]
      exact (filter2_head_isSome _ _ _).mp hC
    · rename_i hC
      constructor
      · intro h
        exact absurd h (by simp)
      · intro h
        exact absurd ((filter2_head_isSome _ _ _).mpr h) hC

/-- C7 witness: a window reaching past the offer's end raises even with
no leases stored, by the theorem at a concrete store. -/
theorem offer_verify_availability_spec_witness :
    offer_verify_availability exampleStore exampleOffer 50 70 =
      Except.error (Exc.offerNoTimeAvailabilities 7 50 70) :=
  (offer_verify_availability_spec exampleStore exampleOffer 50 70).1
    (by right; decide)

/-- A concrete CREATED owner-change `[10, 20)` from project 1 to
project 2 on resource `(type 0, uuid 1)`. -/
def exampleOwnerChange : OwnerChange :=
  { uuid := 9, from_owner_id := 1, to_owner_id := 2,
    resource_type := 0, resource_uuid := 1,
    start_time := 10, end_time := 20,
    status := Status.CREATED }

/-- A concrete store: just `exampleOwnerChange`. -/
def ownerChangeStore : Store :=
  { offers := [],
    leases := [],
    ownerChanges := [exampleOwnerChange] }

/-- C8: with `is_owner_change=False` the outcome of
`resource_verify_availability` does not depend on the owner-change rows;
with `is_owner_change=True` a CREATED/ACTIVE owner-change overlapping the
window raises `ResourceTimeConflict` (when neither offers nor leases
already conflict). -/
theorem resource_verify_availability_owner_change_asymmetry :
    (∀ (st1 st2 : Store) (rt ru s e : Nat), st1.offers = st2.offers →
      st1.leases = st2.leases →
      resource_verify_availability st1 rt ru s e false =
        resource_verify_availability st2 rt ru s e false) ∧
    (∀ (st : Store) (rt ru s e : Nat),
      (∀ o ∈ st.offers, offerMatches rt ru o = true →
        overlapFilter s e o.start_time o.end_time = false) →
      (∀ l ∈ st.leases, leaseMatches rt ru l = true →
        overlapFilter s e l.start_time l.end_time = false) →
      (∃ oc ∈ st.ownerChanges, ownerChangeMatches rt ru oc = true ∧
        overlapFilter s e oc.start_time oc.end_time = true) →
      resource_verify_availability st rt ru s e true =
        Except.error (Exc.resourceTimeConflict ru rt)) := by
  constructor
  · intro st1 st2 rt ru s e h1 h2
    simp only [resource_verify_availability, h1, h2, Bool.not_false, if_true]
  · intro st rt ru s e hOff hLease hOc
    have hOff2 : ((st.offers.filter (offerMatches rt ru)).filter
        (fun o => overlapFilter s e o.start_time o.end_time)).head?.isSome = false := by
      rw [Bool.eq_false_iff]
      intro hcontra
      rcases (filter2_head_isSome _ _ _).mp hcontra with ⟨o, hm, hmatch, hov⟩
      rw [hOff o hm hmatch] at hov
      exact Bool.false_ne_true hov
    have hLease2 : ((st.leases.filter (leaseMatches rt ru)).filter
        (fun l => overlapFilter s e l.start_time l.end_time)).head?.isSome = false := by
      rw [Bool.eq_false_iff]
      intro hcontra
      rcases (filter2_head_isSome _ _ _).mp hcontra with ⟨l, hm, hmatch, hov⟩
      rw [hLease l hm hmatch] at hov
      exact Bool.false_ne_true hov
    have hOc2 : ((st.ownerChanges.filter (ownerChangeMatches rt ru)).filter
        (fun oc => overlapFilter s e oc.start_time oc.end_time)).head?.isSome = true :=
      (filter2_head_isSome _ _ _).mpr hOc
    simp only [resource_verify_availability, hOff2, hLease2, hOc2,
      Bool.false_eq_true, if_false, Bool.not_true, if_true]

/-- C8 witness: at a concrete store whose only reservation is an owner
change `[10, 20)`, an owner-change candidate `[15, 25)` conflicts. -/
theorem resource_verify_availability_owner_change_asymmetry_witness :
    resource_verify_availability ownerChangeStore 0 1 15 25 true =
      Except.error (Exc.resourceTimeConflict 1 0) :=
  resource_verify_availability_owner_change_asymmetry.2 ownerChangeStore 0 1 15 25
    (fun o hm => absurd hm (List.not_mem_nil o))
    (fun l hm => absurd hm (List.not_mem_nil l))
    (by decide)

/-- C3: any CREATED/ACTIVE owner-change on the resource that straddles
the window makes `resource_check_admin` return false regardless of the
candidate; concretely, for the change `[10, 20)` to project 2, window
`[11, 19)` authorizes exactly project 2 and window `[9, 12)` authorizes
nobody. -/
theorem resource_check_admin_straddle_denies :
    (∀ (st : Store) (rt ru ws we dap pid : Nat),
      (∃ oc ∈ st.ownerChanges, ownerChangeMatches rt ru oc = true ∧
        straddleFilter ws we oc.start_time oc.end_time = true) →
      resource_check_admin st rt ru ws we dap pid = false) ∧
    (resource_check_admin ownerChangeStore 0 1 11 19 1 2 = true ∧
     resource_check_admin ownerChangeStore 0 1 11 19 1 1 = false ∧
     ∀ pid : Nat, resource_check_admin ownerChangeStore 0 1 9 12 1 pid = false) := by
  have h1 : ∀ (st : Store) (rt ru ws we dap pid : Nat),
      (∃ oc ∈ st.ownerChanges, ownerChangeMatches rt ru oc = true ∧
        straddleFilter ws we oc.start_time oc.end_time = true) →
      resource_check_admin st rt ru ws we dap pid = false := by
    intro st rt ru ws we dap pid ⟨oc, hm, hmatch, hstr⟩
    have hmem : oc ∈ (st.ownerChanges.filter (ownerChangeMatches rt ru)).filter
        (fun x => straddleFilter ws we x.start_time x.end_time) :=
      List.mem_filter.mpr ⟨List.mem_filter.mpr ⟨hm, hmatch⟩, hstr⟩
    have hlen : 0 < ((st.ownerChanges.filter (ownerChangeMatches rt ru)).filter
        (fun x => straddleFilter ws we x.start_time x.end_time)).length :=
      List.length_pos.mpr (List.ne_nil_of_mem hmem)
    simp only [resource_check_admin]
    rw [if_pos hlen]
  refine ⟨h1, by decide, by decide, fun pid => ?_⟩
  exact h1 ownerChangeStore 0 1 9 12 1 pid
    ⟨exampleOwnerChange, by simp [ownerChangeStore], by decide, by decide⟩

/-- C3 witness: the straddling window `[9, 12)` is denied for the
concrete candidate 5, by the theorem at the concrete store. -/
theorem resource_check_admin_straddle_denies_witness :
    resource_check_admin ownerChangeStore 0 1 9 12 1 5 = false :=
  resource_check_admin_straddle_denies.1 ownerChangeStore 0 1 9 12 1 5
    ⟨exampleOwnerChange, by simp [ownerChangeStore], by decide, by decide⟩

/-- C2 counterexample: for the owner-change `[10, 20)` (to project 2) and
window `[11, 19)`, no CREATED/ACTIVE change straddles the window and no
change has its interval contained in the window in the claim's sense
(`window_start <= OC.start AND window_end >= OC.end`), yet
`resource_check_admin` returns false for a candidate equal to the default
admin project — the claim would demand true there. -/
theorem resource_check_admin_contained_counterexample :
    (ownerChangeStore.ownerChanges.all (fun oc =>
      !(ownerChangeMatches 0 1 oc &&
        straddleFilter 11 19 oc.start_time oc.end_time))) = true ∧
    (ownerChangeStore.ownerChanges.all (fun oc =>
      !(ownerChangeMatches 0 1 oc &&
        specContainedInWindow 11 19 oc.start_time oc.end_time))) = true ∧
    resource_check_admin ownerChangeStore 0 1 11 19 1 1 = false := by
  decide

/-- C2 amended: when no CREATED/ACTIVE owner-change on the resource
straddles the window, the second phase of `resource_check_admin` selects
owner-changes whose interval wholly contains the window (inclusive
bounds, `OC.start <= window_start AND window_end <= OC.end`, the filter
of `owner_change_get_all`): with exactly one such change the call
returns true iff the candidate equals that change's `to_owner_id`; with
none it returns true iff the candidate equals the default admin
project. -/
theorem resource_check_admin_window_in_change
    (st : Store) (rt ru ws we dap pid : Nat)
    (hno : ∀ oc ∈ st.ownerChanges, ownerChangeMatches rt ru oc = true →
      straddleFilter ws we oc.start_time oc.end_time = false) :
    (∀ oc : OwnerChange,
      owner_change_get_all st rt ru (some ws) (some we)
          (some [Status.CREATED, Status.ACTIVE]) = [oc] →
      resource_check_admin st rt ru ws we dap pid = (pid == oc.to_owner_id)) ∧
    (owner_change_get_all st rt ru (some ws) (some we)
        (some [Status.CREATED, Status.ACTIVE]) = [] →
      resource_check_admin st rt ru ws we dap pid = (pid == dap)) := by
  have hempty : (st.ownerChanges.filter (ownerChangeMatches rt ru)).filter
      (fun x => straddleFilter ws we x.start_time x.end_time) = [] := by
    rw [List.filter_eq_nil_iff]
    intro oc hm
    rcases List.mem_filter.mp hm with ⟨hm0, hmatch⟩
    rw [hno oc hm0 hmatch]
    exact Bool.false_ne_true
  constructor
  · intro oc h
    simp [resource_check_admin, hempty, h]
  · intro h
    simp [resource_check_admin, hempty, h]

/-- C2 amended witness: window `[11, 19)` lies inside the change
`[10, 20)`, so candidate 2 (the change's `to_owner_id`) is authorized. -/
theorem resource_check_admin_window_in_change_witness :
    resource_check_admin ownerChangeStore 0 1 11 19 1 2 =
      (2 == exampleOwnerChange.to_owner_id) :=
  (resource_check_admin_window_in_change ownerChangeStore 0 1 11 19 1 2
    (by
      intro oc hm hmatch
      have hoc : oc = exampleOwnerChange := by simpa [ownerChangeStore] using hm
      subst hoc
      decide)).1 exampleOwnerChange (by decide)

/-- A CREATED lease `[10, 20)` with uuid 31, stored next to `destroyLease2`. -/
def destroyLease1 : Lease :=
  { uuid := 31, project_id := 4, owner_id := 3, offer_uuid := some 7,
    resource_type := 0, resource_uuid := 1,
    start_time := 10, end_time := 20,
    status := Status.CREATED, properties := 0 }

/-- A CREATED lease `[30, 40)` with uuid 32, stored next to `destroyLease1`. -/
def destroyLease2 : Lease :=
  { uuid := 32, project_id := 5, owner_id := 3, offer_uuid := some 7,
    resource_type := 0, resource_uuid := 1,
    start_time := 30, end_time := 40,
    status := Status.CREATED, properties := 0 }

/-- A second CREATED owner-change `[30, 40)` with uuid 10, stored next to
`exampleOwnerChange` (uuid 9). -/
def destroySecondOwnerChange : OwnerChange :=
  { uuid := 10, from_owner_id := 1, to_owner_id := 3,
    resource_type := 0, resource_uuid := 1,
    start_time := 30, end_time := 40,
    status := Status.CREATED }

/-- A store with two leases and two owner-changes, to exercise the
destroy operations with more than one stored row per table. -/
def destroyStore : Store :=
  { offers := [exampleOffer],
    leases := [destroyLease1, destroyLease2],
    ownerChanges := [exampleOwnerChange, destroySecondOwnerChange] }

/-- C5: `lease_destroy` and `owner_change_destroy` do NOT remove only
the row with the given uuid: the source calls `query.delete()` on the
unfiltered `model_query` (its `filter_by` is generative and was used
only for the existence probe), so at a store with two leases (uuids 31
and 32) destroying lease 31 also deletes lease 32, and at a store with
two owner-changes (uuids 9 and 10) destroying change 9 also deletes
change 10 — unlike `offer_destroy`, which deletes via the filtered
query. -/
theorem destroy_bulk_delete_bug :
    (destroyStore.leases.length = 2 ∧ destroyLease1.uuid = 31 ∧
      destroyLease2.uuid = 32 ∧
      lease_destroy destroyStore 31 =
        Except.ok { destroyStore with leases := [] }) ∧
    (destroyStore.ownerChanges.length = 2 ∧ exampleOwnerChange.uuid = 9 ∧
      destroySecondOwnerChange.uuid = 10 ∧
      owner_change_destroy destroyStore 9 =
        Except.ok { destroyStore with ownerChanges := [] }) ∧
    (destroyStore.offers.length = 1 ∧ exampleOffer.uuid = 7 ∧
      offer_destroy destroyStore 7 =
        Except.ok { destroyStore with offers := [] }) :=
  ⟨⟨rfl, rfl, rfl, rfl⟩, ⟨rfl, rfl, rfl, rfl⟩, ⟨rfl, rfl, rfl⟩⟩

/-- C6: for a stored row with `start_time < end_time` and any partial
values map, each update raises `InvalidTimeRange` iff the resolved
effective bounds (the supplied value, or the stored one when omitted)
satisfy `start >= end`; an update supplying neither bound (for example a
properties-only update) succeeds and leaves both bounds unchanged. -/
theorem update_time_range_spec (st : Store) (u : Nat) (v : UpdateValues) :
    (∀ o : Offer, st.offers.filter (fun x => x.uuid == u) = [o] →
      ((offer_update st u v = Except.error (Exc.invalidTimeRange "an offer"
          (v.start_time.getD o.start_time) (v.end_time.getD o.end_time)) ↔
        v.end_time.getD o.end_time ≤ v.start_time.getD o.start_time) ∧
       (v.start_time = none → v.end_time = none → o.start_time < o.end_time →
        ∃ st2 : Store, ∃ o2 : Offer,
          offer_update st u v = Except.ok (st2, o2) ∧
          o2.start_time = o.start_time ∧ o2.end_time = o.end_time))) ∧
    (∀ l : Lease, st.leases.filter (fun x => x.uuid == u) = [l] →
      ((lease_update st u v = Except.error (Exc.invalidTimeRange "a lease"
          (v.start_time.getD l.start_time) (v.end_time.getD l.end_time)) ↔
        v.end_time.getD l.end_time ≤ v.start_time.getD l.start_time) ∧
       (v.start_time = none → v.end_time = none → l.start_time < l.end_time →
        ∃ st2 : Store, ∃ l2 : Lease,
          lease_update st u v = Except.ok (st2, l2) ∧
          l2.start_time = l.start_time ∧ l2.end_time = l.end_time))) ∧
    (∀ oc : OwnerChange, st.ownerChanges.filter (fun x => x.uuid == u) = [oc] →
      ((owner_change_update st u v =
          Except.error (Exc.invalidTimeRange "an owner_change"
            (v.start_time.getD oc.start_time) (v.end_time.getD oc.end_time)) ↔
        v.end_time.getD oc.end_time ≤ v.start_time.getD oc.start_time) ∧
       (v.start_time = none → v.end_time = none →
        oc.start_time < oc.end_time →
        ∃ st2 : Store, ∃ oc2 : OwnerChange,
          owner_change_update st u v = Except.ok (st2, oc2) ∧
          oc2.start_time = oc.start_time ∧ oc2.end_time = oc.end_time))) := by
  refine ⟨?_, ?_, ?_⟩
  · intro o hfil
    constructor
    · by_cases hle : v.end_time.getD o.end_time ≤ v.start_time.getD o.start_time
      · cases hs : v.start_time <;> cases he : v.end_time <;>
          simp_all [offer_update, one_or_none, effectiveTime]
      · cases hs : v.start_time <;> cases he : v.end_time <;>
          simp_all [offer_update, one_or_none, effectiveTime]
    · intro hs he hlt
      refine ⟨{ st with offers := st.offers.map (fun x =>
          if x.uuid == u then x.applyUpdate v else x) },
        o.applyUpdate v, ?_, ?_, ?_⟩
      · simp [offer_update, hfil, one_or_none, effectiveTime, hs, he,
          Nat.not_le.mpr hlt]
      · simp [Offer.applyUpdate, hs]
      · simp [Offer.applyUpdate, he]
  · intro l hfil
    constructor
    · by_cases hle : v.end_time.getD l.end_time ≤ v.start_time.getD l.start_time
      · cases hs : v.start_time <;> cases he : v.end_time <;>
          simp_all [lease_update, one_or_none, effectiveTime]
      · cases hs : v.start_time <;> cases he : v.end_time <;>
          simp_all [lease_update, one_or_none, effectiveTime]
    · intro hs he hlt
      refine ⟨{ st with leases := st.leases.map (fun x =>
          if x.uuid == u then x.applyUpdate v else x) },
        l.applyUpdate v, ?_, ?_, ?_⟩
      · simp [lease_update, hfil, one_or_none, effectiveTime, hs, he,
          Nat.not_le.mpr hlt]
      · simp [Lease.applyUpdate, hs]
      · simp [Lease.applyUpdate, he]
  · intro oc hfil
    constructor
    · by_cases hle : v.end_time.getD oc.end_time ≤ v.start_time.getD oc.start_time
      · cases hs : v.start_time <;> cases he : v.end_time <;>
          simp_all [owner_change_update, one_or_none, effectiveTime]
      · cases hs : v.start_time <;> cases he : v.end_time <;>
          simp_all [owner_change_update, one_or_none, effectiveTime]
    · intro hs he hlt
      refine ⟨{ st with ownerChanges := st.ownerChanges.map (fun x =>
          if x.uuid == u then x.applyUpdate v else x) },
        oc.applyUpdate v, ?_, ?_, ?_⟩
      · simp [owner_change_update, hfil, one_or_none, effectiveTime, hs, he,
          Nat.not_le.mpr hlt]
      · simp [OwnerChange.applyUpdate, hs]
      · simp [OwnerChange.applyUpdate, he]

/-- C6 witness: a values map touching only `properties` leaves the
stored offer's bounds `[50, 60)` unchanged. -/
theorem update_time_range_spec_witness :
    ∃ st2 : Store, ∃ o2 : Offer,
      offer_update exampleStore 7
          { start_time := none, end_time := none,
            status := none, properties := some 4 } =
        Except.ok (st2, o2) ∧
      o2.start_time = exampleOffer.start_time ∧
      o2.end_time = exampleOffer.end_time :=
  ((update_time_range_spec exampleStore 7
      { start_time := none, end_time := none,
        status := none, properties := some 4 }).1
    exampleOffer (by decide)).2 rfl rfl (by decide)

/-- C10: when no row of the kind has the uuid, each update neither
returns normally nor raises the corresponding NotFound error (the `None`
lookup result is dereferenced instead), while the corresponding destroy
does raise NotFound. -/
theorem update_requires_existing_row (st : Store) (u : Nat) (v : UpdateValues) :
    ((∀ o ∈ st.offers, o.uuid ≠ u) →
      (∀ r : Store × Offer, offer_update st u v ≠ Except.ok r) ∧
      offer_update st u v ≠ Except.error (Exc.offerNotFound u) ∧
      offer_destroy st u = Except.error (Exc.offerNotFound u)) ∧
    ((∀ l ∈ st.leases, l.uuid ≠ u) →
      (∀ r : Store × Lease, lease_update st u v ≠ Except.ok r) ∧
      lease_update st u v ≠ Except.error (Exc.leaseNotFound u) ∧
      lease_destroy st u = Except.error (Exc.leaseNotFound u)) ∧
    ((∀ oc ∈ st.ownerChanges, oc.uuid ≠ u) →
      (∀ r : Store × OwnerChange, owner_change_update st u v ≠ Except.ok r) ∧
      owner_change_update st u v ≠ Except.error (Exc.ownerChangeNotFound u) ∧
      owner_change_destroy st u = Except.error (Exc.ownerChangeNotFound u)) := by
  refine ⟨?_, ?_, ?_⟩
  · intro h
    have hf := filter_eq_nil_of_ne Offer.uuid u st.offers h
    refine ⟨?_, ?_, ?_⟩
    · intro r
      cases hs : v.start_time <;> cases he : v.end_time <;>
        simp [offer_update, hf, one_or_none, effectiveTime, hs, he] <;>
          try (split <;> simp)
    · cases hs : v.start_time <;> cases he : v.end_time <;>
        simp [offer_update, hf, one_or_none, effectiveTime, hs, he] <;>
          try (split <;> simp)
    · simp [offer_destroy, hf, one_or_none]
  · intro h
    have hf := filter_eq_nil_of_ne Lease.uuid u st.leases h
    refine ⟨?_, ?_, ?_⟩
    · intro r
      cases hs : v.start_time <;> cases he : v.end_time <;>
        simp [lease_update, hf, one_or_none, effectiveTime, hs, he] <;>
          try (split <;> simp)
    · cases hs : v.start_time <;> cases he : v.end_time <;>
        simp [lease_update, hf, one_or_none, effectiveTime, hs, he] <;>
          try (split <;> simp)
    · simp [lease_destroy, hf, one_or_none]
  · intro h
    have hf := filter_eq_nil_of_ne OwnerChange.uuid u st.ownerChanges h
    refine ⟨?_, ?_, ?_⟩
    · intro r
      cases hs : v.start_time <;> cases he : v.end_time <;>
        simp [owner_change_update, hf, one_or_none, effectiveTime, hs, he] <;>
          try (split <;> simp)
    · cases hs : v.start_time <;> cases he : v.end_time <;>
        simp [owner_change_update, hf, one_or_none, effectiveTime, hs, he] <;>
          try (split <;> simp)
    · simp [owner_change_destroy, hf, one_or_none]

/-- C10 witness: updating the absent offer uuid 99 of a concrete store
crashes on the `None` lookup rather than raising `OfferNotFound`. -/
theorem update_requires_existing_row_witness :
    offer_update exampleStore 99
        { start_time := none, end_time := none,
          status := none, properties := some 4 } ≠
      Except.error (Exc.offerNotFound 99) :=
  ((update_requires_existing_row exampleStore 99
      { start_time := none, end_time := none,
        status := none, properties := some 4 }).1
    (by
      intro o hm
      have ho : o = exampleOffer := by simpa [exampleStore] using hm
      subst ho
      decide)).2.1

theorem availabilitiesScan_pos (occupied : List (Nat × Nat)) :
    ∀ (cursor offerEnd : Nat),
      ∀ g ∈ availabilitiesScan cursor occupied offerEnd, g.1 < g.2 := by
  induction occupied with
  | nil =>
    intro cursor offerEnd g hg
    by_cases h : cursor < offerEnd
    · simp only [availabilitiesScan, if_pos h, List.mem_singleton] at hg
      subst hg
      exact h
    · simp [availabilitiesScan, if_neg h] at hg
  | cons hd tl ih =>
    intro cursor offerEnd g hg
    obtain ⟨s, e⟩ := hd
    simp only [availabilitiesScan, List.mem_append] at hg
    rcases hg with hg | hg
    · by_cases h : cursor < s
      · simp only [if_pos h, List.mem_singleton] at hg
        subst hg
        exact h
      · simp [if_neg h] at hg
    · exact ih (max cursor e) offerEnd g hg

/-- The offer `[0, 100)` of the availability examples. -/
def offerC4 : Offer :=
  { uuid := 11, project_id := 3, lessee_id := none,
    resource_type := 0, resource_uuid := 2,
    start_time := 0, end_time := 100,
    status := Status.AVAILABLE, properties := 0 }

/-- C4: the availability computation is exactly the cursor scan of the
offer's interval over the occupied list; on offer `[0, 100)` the three
example occupied lists give exactly the expected gaps; and no emitted
gap is empty or of negative length. -/
theorem get_availabilities_spec :
    (∀ (o : Offer) (occupied : List (Nat × Nat)),
      get_availabilities o occupied =
        availabilitiesScan o.start_time occupied o.end_time) ∧
    (get_availabilities offerC4 [(10, 20), (20, 30), (50, 60)] =
      [(0, 10), (30, 50), (60, 100)]) ∧
    (get_availabilities offerC4 [(0, 100)] = []) ∧
    (get_availabilities offerC4 [] = [(0, 100)]) ∧
    (∀ (cursor : Nat) (occupied : List (Nat × Nat)) (offerEnd : Nat),
      ∀ g ∈ availabilitiesScan cursor occupied offerEnd, g.1 < g.2) :=
  ⟨fun _ _ => rfl, by decide, by decide, by decide,
   fun cursor occupied offerEnd => availabilitiesScan_pos occupied cursor offerEnd⟩

/-- C4 witness: the scan of `[0, 100)` against occupied `[(10, 20)]`
emits the gap `(0, 10)`, which has positive length. -/
theorem get_availabilities_spec_witness :
    ((0, 10) ∈ availabilitiesScan 0 [(10, 20)] 100) ∧
      ((0, 10) : Nat × Nat).1 < ((0, 10) : Nat × Nat).2 :=
  ⟨by decide,
   get_availabilities_spec.2.2.2.2 0 [(10, 20)] 100 (0, 10) (by decide)⟩

/-- Membership characterization for the lease list inspected by
`offer_get_first_availability`. -/
theorem mem_first_availability_pool (st : Store) (offer_uuid start : Nat)
    (l : Lease) :
    l ∈ (List.insertionSort leaseLe
        (st.leases.filter (leaseOnOffer offer_uuid))).filter
        (fun x => decide (start ≤ x.end_time)) ↔
      l ∈ st.leases ∧ leaseOnOffer offer_uuid l = true ∧ start ≤ l.end_time := by
  rw [List.mem_filter, List.mem_insertionSort, List.mem_filter]
  simp [and_assoc]

/-- C9: when a claim omits `end_time`, the resolved end time is the
start time of the CREATED/ACTIVE lease on the offer with the smallest
start time among those whose `end_time >= start`, or the offer's
`end_time` when no such lease exists. -/
theorem claim_end_time_resolution (st : Store) (offer : Offer) (start : Nat) :
    ((∀ l ∈ st.leases,
        ¬(leaseOnOffer offer.uuid l = true ∧ start ≤ l.end_time)) →
      claim_resolve_end_time st offer start none = offer.end_time) ∧
    ((∃ l ∈ st.leases, leaseOnOffer offer.uuid l = true ∧ start ≤ l.end_time) →
      ∃ l0 ∈ st.leases, leaseOnOffer offer.uuid l0 = true ∧
        start ≤ l0.end_time ∧
        claim_resolve_end_time st offer start none = l0.start_time ∧
        ∀ l ∈ st.leases, leaseOnOffer offer.uuid l = true →
          start ≤ l.end_time → l0.start_time ≤ l.start_time) := by
  constructor
  · intro h
    have hN : (List.insertionSort leaseLe
        (st.leases.filter (leaseOnOffer offer.uuid))).filter
        (fun x => decide (start ≤ x.end_time)) = [] := by
      rw [List.filter_eq_nil_iff]
      intro x hx
      rcases List.mem_filter.mp ((List.mem_insertionSort leaseLe).mp hx)
        with ⟨hmem, hq⟩
      simp only [decide_eq_true_eq]
      intro hle
      exact h x hmem ⟨hq, hle⟩
    simp [claim_resolve_end_time, offer_get_first_availability, hN]
  · intro hex
    rcases hex with ⟨l, hmem, hq, hle⟩
    have hmemN : l ∈ (List.insertionSort leaseLe
        (st.leases.filter (leaseOnOffer offer.uuid))).filter
        (fun x => decide (start ≤ x.end_time)) :=
      (mem_first_availability_pool st offer.uuid start l).mpr ⟨hmem, hq, hle⟩
    match hN : (List.insertionSort leaseLe
        (st.leases.filter (leaseOnOffer offer.uuid))).filter
        (fun x => decide (start ≤ x.end_time)) with
    | [] =>
      rw [hN] at hmemN
      exact absurd hmemN (List.not_mem_nil l)
    | l0 :: rest =>
      have hl0 : l0 ∈ st.leases ∧ leaseOnOffer offer.uuid l0 = true ∧
          start ≤ l0.end_time :=
        (mem_first_availability_pool st offer.uuid start l0).mp
          (hN ▸ List.mem_cons_self l0 rest)
      have hsorted : List.Pairwise leaseLe (l0 :: rest) := by
        rw [← hN]
        exact List.Pairwise.sublist (List.filter_sublist _)
          (List.sorted_insertionSort leaseLe
            (st.leases.filter (leaseOnOffer offer.uuid)))
      refine ⟨l0, hl0.1, hl0.2.1, hl0.2.2, ?_, ?_⟩
      · simp [claim_resolve_end_time, offer_get_first_availability, hN]
      · intro x hxmem hxq hxle
        have hxN : x ∈ l0 :: rest := by
          rw [← hN]
          exact (mem_first_availability_pool st offer.uuid start x).mpr
            ⟨hxmem, hxq, hxle⟩
        rcases List.mem_cons.mp hxN with hx0 | hxrest
        · rw [hx0]
        · exact List.rel_of_pairwise_cons hsorted hxrest

/-- A CREATED lease `[70, 80)` on offer 7. -/
def claimLease1 : Lease :=
  { uuid := 21, project_id := 4, owner_id := 3, offer_uuid := some 7,
    resource_type := 0, resource_uuid := 1,
    start_time := 70, end_time := 80,
    status := Status.CREATED, properties := 0 }

/-- An ACTIVE lease `[55, 60)` on offer 7. -/
def claimLease2 : Lease :=
  { uuid := 22, project_id := 5, owner_id := 3, offer_uuid := some 7,
    resource_type := 0, resource_uuid := 1,
    start_time := 55, end_time := 60,
    status := Status.ACTIVE, properties := 0 }

/-- A store with two leases on offer 7, stored out of start-time order. -/
def claimStore : Store :=
  { offers := [exampleOffer],
    leases := [claimLease1, claimLease2],
    ownerChanges := [] }

/-- C9 witness: claiming offer 7 from time 50 with no explicit end time
resolves the end to the smallest qualifying lease start (55), by the
theorem at the concrete store. -/
theorem claim_end_time_resolution_witness :
    ∃ l0 ∈ claimStore.leases, leaseOnOffer exampleOffer.uuid l0 = true ∧
      50 ≤ l0.end_time ∧
      claim_resolve_end_time claimStore exampleOffer 50 none = l0.start_time ∧
      ∀ l ∈ claimStore.leases, leaseOnOffer exampleOffer.uuid l = true →
        50 ≤ l.end_time → l0.start_time ≤ l.start_time :=
  (claim_end_time_resolution claimStore exampleOffer 50).2
    ⟨claimLease2, by simp [claimStore], by decide, by decide⟩

end EsiLeap
